import Mathlib

/-!
Shallow embedding of the bySIMMED ERP manufacturing core: the order /
production-card lifecycle, time-tracking, and material-usage logic from
`ManufacturingOrderUseCases`, `ProductionCardUseCases`,
`MongoManufacturingOrderRepository`, and `MongoProductionCardRepository`.

Dates are modelled as `Int` milliseconds since the epoch (JS `Date.getTime()`).
JS numbers occurring in this core (quantities, hours, minute totals) are
modelled as `Int`.  Each use-case operation is fused with the repository
mutation it invokes on success: a thrown use-case error or a `null` repository
result both become `Except.error` with the source's message, and the guard
checks precede the write exactly as in the source.
-/

namespace BySimmed

/-- JS `Math.round (num / den)` for integers with `den > 0`, computed exactly:
`Math.round x = ⌊x + 1/2⌋`, so the result is `⌊(2*num + den) / (2*den)⌋`. -/
def jsRoundDiv (num den : Int) : Int := Int.fdiv (2 * num + den) (2 * den)

/-- Embeds `ManufacturingOrderStatus` from `ManufacturingOrder.ts`. -/
inductive OrderStatus
  | pending
  | in_progress
  | paused
  | completed
  | cancelled
  | overdue
deriving DecidableEq, Repr

/-- Embeds `ProductionCardStatus` from `ProductionCard.ts`. -/
inductive CardStatus
  | pending
  | in_progress
  | paused
  | completed
  | cancelled
deriving DecidableEq, Repr

/-- Embeds `ProductionCardPriority` from `ProductionCard.ts`. -/
inductive CardPriority
  | low
  | normal
  | high
  | urgent
deriving DecidableEq, Repr

/-- Embeds `InventoryType` from `InventoryItem.ts`. -/
inductive InventoryType
  | model
  | component
  | material
deriving DecidableEq, Repr

/-- Embeds `TimeTracker` from `ManufacturingOrder.ts`. -/
structure TimeTracker where
  startTime : Int
  endTime : Option Int := none
  totalTimeMinutes : Int := 0
  isPaused : Bool
  pauseStartTime : Option Int := none
  totalPauseMinutes : Int
deriving DecidableEq, Repr

/-- Embeds `MaterialUsage` from `ManufacturingOrder.ts`. -/
structure MaterialUsage where
  materialId : String
  materialName : String
  materialSku : String
  plannedQuantity : Int
  actualQuantity : Int
  unit : String
  notes : Option String := none
  adjustedBy : Option String := none
  adjustedAt : Option Int := none
deriving DecidableEq, Repr

/-- Embeds `ComponentProgress` from `ManufacturingOrder.ts`.  The optional
`materialUsage` array is modelled as a plain list (absent = `[]`, which is how
every code path reads it). -/
structure ComponentProgress where
  componentId : String
  componentName : String
  componentSku : String
  quantityRequired : Int
  quantityCompleted : Int
  isCompleted : Bool
  completedAt : Option Int := none
  timeTracker : Option TimeTracker := none
  materialUsage : List MaterialUsage := []
  startedAt : Option Int := none
deriving DecidableEq, Repr

/-- Embeds `ManufacturingOrder` from `ManufacturingOrder.ts`. -/
structure ManufacturingOrder where
  id : String
  modelId : String
  modelName : String
  modelSku : String
  quantity : Int
  clientName : String
  dueDate : Int
  createdDate : Int
  status : OrderStatus
  components : List ComponentProgress
  notes : Option String := none
  estimatedHours : Int
  startedAt : Option Int := none
  completedAt : Option Int := none
  timeTracker : Option TimeTracker := none
deriving DecidableEq, Repr

/-- Embeds `ProductionCard` from `ProductionCard.ts`.  `priority` is optional here
because stored documents may lack it; the listing code defends against that
with a `|| 3` default. -/
structure ProductionCard where
  id : String
  orderId : String
  orderName : String
  cardNumber : Int
  totalCards : Int
  modelId : String
  modelName : String
  modelSku : String
  quantity : Int
  dueDate : Int
  status : CardStatus
  priority : Option CardPriority := none
  components : List ComponentProgress
  notes : Option String := none
  estimatedHours : Int
  startedAt : Option Int := none
  completedAt : Option Int := none
  timeTracker : Option TimeTracker := none
deriving DecidableEq, Repr

/-- Embeds `InventoryItem` from `InventoryItem.ts` (the fields this core reads).
`itemType` embeds the source field `type`, a Lean keyword. -/
structure InventoryItem where
  id : String
  name : String
  sku : String
  itemType : InventoryType
  quantity : Int
  unit : Option String := none
  estimatedManufacturingTime : Option Int := none
  components : Option (List String) := none
  canManufacture : Option Bool := none
deriving DecidableEq, Repr

/-- Embeds `IInventoryRepository.findById` over the modelled store. -/
def findItemById (inv : List InventoryItem) (id : String) : Option InventoryItem :=
  inv.find? (fun it => it.id == id)

/-- Embeds `IInventoryRepository.updateQuantity` (MongoInventoryRepository line 69):
sets `quantity` on the matching item. -/
def updateItemQuantity (inv : List InventoryItem) (id : String) (q : Int) :
    List InventoryItem :=
  inv.map (fun it => if it.id == id then { it with quantity := q } else it)

/-- Embeds `order.components.find(c => c.componentId === componentId)`. -/
def findComponent (cs : List ComponentProgress) (cid : String) :
    Option ComponentProgress :=
  cs.find? (fun c => c.componentId == cid)

/-- Mongo positional update `components.$`: rewrite the first element matching
`componentId` with `f`. -/
def updateFirstComponent (cs : List ComponentProgress) (cid : String)
    (f : ComponentProgress → ComponentProgress) : List ComponentProgress :=
  match cs with
  | [] => []
  | c :: rest =>
    if c.componentId == cid then f c :: rest
    else c :: updateFirstComponent rest cid f

/-- JS `x || 1` applied to the optional `estimatedManufacturingTime`:
`undefined` and `0` are falsy and fall back to `1`. -/
def estOrOne (m : InventoryItem) : Int :=
  match m.estimatedManufacturingTime with
  | none => 1
  | some t => if t = 0 then 1 else t

/-- The `ComponentProgress` entry built for each resolved component id in
`createManufacturingOrder` (lines 53-61 / 69-77 of the use case). -/
def mkComponentProgress (item : InventoryItem) : ComponentProgress :=
  { componentId := item.id
    componentName := item.name
    componentSku := item.sku
    quantityRequired := 1
    quantityCompleted := 0
    isCompleted := false
    materialUsage := [] }

/-- The component-resolution loop: each id is looked up in the inventory and
missing ids are silently skipped. -/
def resolveComponents (inv : List InventoryItem) (ids : List String) :
    List ComponentProgress :=
  ids.filterMap (fun cid => (findItemById inv cid).map mkComponentProgress)

/-- Embeds `CreateManufacturingOrderRequest` from `ManufacturingOrderUseCases.ts`. -/
structure CreateManufacturingOrderRequest where
  modelId : String
  quantity : Int
  clientName : String
  dueDate : Int
  notes : Option String := none
  componentIds : Option (List String) := none
deriving DecidableEq, Repr

/-- Embeds `CreateProductionCardRequest` from `ProductionCardUseCases.ts`. -/
structure CreateProductionCardRequest where
  orderId : String
  orderName : String
  cardNumber : Int
  totalCards : Int
  modelId : String
  modelName : String
  modelSku : String
  dueDate : Int
  components : List ComponentProgress
  notes : Option String := none
  estimatedHours : Int
  priority : Option CardPriority := none
deriving DecidableEq, Repr

/-- Embeds `JSON.parse(JSON.stringify(components))`, a deep copy.  On the embedded
values (no `Date` fields are present in just-created component lists) the
round trip preserves the value exactly, so in value semantics it is the
identity; the freshness of the copy is what severs reference sharing in JS. -/
def jsonCloneComponents (cs : List ComponentProgress) : List ComponentProgress :=
  cs

namespace ProductionCardUseCases

/-- Embeds `ProductionCardUseCases.createProductionCard` (lines 27-46), fused with the
repository insert; `cid` stands for the id the store assigns.
`request.priority || NORMAL` defaults a missing priority to `normal`. -/
def createProductionCard (request : CreateProductionCardRequest) (cid : String) :
    ProductionCard :=
  { id := cid
    orderId := request.orderId
    orderName := request.orderName
    cardNumber := request.cardNumber
    totalCards := request.totalCards
    modelId := request.modelId
    modelName := request.modelName
    modelSku := request.modelSku
    quantity := 1
    dueDate := request.dueDate
    status := CardStatus.pending
    priority := some (request.priority.getD CardPriority.normal)
    components := jsonCloneComponents request.components
    notes := request.notes
    estimatedHours := request.estimatedHours }

/-- Embeds `ProductionCardUseCases.createMultipleProductionCards` (lines 48-57); card
ids are assigned by the store, modelled by numbering them. -/
def createMultipleProductionCards (requests : List CreateProductionCardRequest) :
    List ProductionCard :=
  requests.enum.map (fun p => createProductionCard p.2 (toString p.1))

end ProductionCardUseCases

namespace ManufacturingOrderUseCases

/-- Embeds `ManufacturingOrderUseCases.createManufacturingOrder` (lines 30-121), fused
with the repository insert; `now` is the creation instant and `oid` the id the
store assigns to the order. -/
def createManufacturingOrder (inv : List InventoryItem)
    (request : CreateManufacturingOrderRequest) (now : Int) (oid : String) :
    Except String (ManufacturingOrder × List ProductionCard) :=
  match findItemById inv request.modelId with
  | none => .error "Modelo no encontrado"
  | some model =>
    if model.canManufacture = some false then
      .error "Este modelo no se puede fabricar"
    else if model.itemType ≠ InventoryType.model then
      .error "Solo se pueden crear órdenes de fabricación para modelos"
    else
      let components :=
        match request.componentIds with
        | some ids =>
          if 0 < ids.length then resolveComponents inv ids
          else
            match model.components with
            | some mids =>
              if 0 < mids.length then resolveComponents inv mids else []
            | none => []
        | none =>
          match model.components with
          | some mids =>
            if 0 < mids.length then resolveComponents inv mids else []
          | none => []
      let order : ManufacturingOrder :=
        { id := oid
          modelId := model.id
          modelName := model.name
          modelSku := model.sku
          quantity := request.quantity
          clientName := request.clientName.trim
          dueDate := request.dueDate
          createdDate := now
          status := OrderStatus.pending
          components := components
          notes := request.notes.map String.trim
          estimatedHours := estOrOne model * request.quantity }
      let cardRequests : List CreateProductionCardRequest :=
        (List.range request.quantity.toNat).map (fun (k : Nat) =>
          { orderId := order.id
            orderName := request.clientName.trim
            cardNumber := (k : Int) + 1
            totalCards := request.quantity
            modelId := model.id
            modelName := model.name
            modelSku := model.sku
            dueDate := request.dueDate
            components := jsonCloneComponents components
            notes := request.notes.map String.trim
            estimatedHours := estOrOne model })
      .ok (order, ProductionCardUseCases.createMultipleProductionCards cardRequests)

end ManufacturingOrderUseCases

/-- Embeds `UpdateManufacturingOrderRequest` from `ManufacturingOrderUseCases.ts`. -/
structure UpdateManufacturingOrderRequest where
  clientName : Option String := none
  dueDate : Option Int := none
  notes : Option String := none
  quantity : Option Int := none
deriving DecidableEq, Repr

namespace ManufacturingOrderUseCases

/-- Embeds `ManufacturingOrderUseCases.updateOrder` (lines 135-152) fused with the
repository `findByIdAndUpdate`: terminal statuses are rejected, then the
present fields of the request overwrite the order's. -/
def updateOrder (o : ManufacturingOrder) (u : UpdateManufacturingOrderRequest) :
    Except String ManufacturingOrder :=
  if o.status = OrderStatus.completed then
    .error "No se puede actualizar una orden completada"
  else if o.status = OrderStatus.cancelled then
    .error "No se puede actualizar una orden cancelada"
  else
    .ok { o with
          clientName := u.clientName.getD o.clientName
          dueDate := u.dueDate.getD o.dueDate
          notes := match u.notes with | some n => some n | none => o.notes
          quantity := u.quantity.getD o.quantity }

/-- Embeds `ManufacturingOrderUseCases.startProduction` (lines 154-167) fused with
`MongoManufacturingOrderRepository.startProduction` (lines 105-123): only
pending orders start; a fresh `TimeTracker` is installed. -/
def startProduction (o : ManufacturingOrder) (now : Int) :
    Except String ManufacturingOrder :=
  if o.status ≠ OrderStatus.pending then
    .error "Solo se pueden iniciar órdenes pendientes"
  else
    .ok { o with
          status := OrderStatus.in_progress
          startedAt := some now
          timeTracker := some
            { startTime := now
              totalTimeMinutes := 0
              isPaused := false
              totalPauseMinutes := 0 } }

/-- Embeds `ManufacturingOrderUseCases.pauseProduction` (lines 169-182) fused with
`MongoManufacturingOrderRepository.pauseProduction` (lines 125-140): only
in-progress orders pause; `timeTracker.isPaused` and `pauseStartTime` are set.
(The Mongo `$set` would create a partial subdocument if the tracker were
absent; every reachable in-progress order carries one, so the embedding updates
the tracker in place when present.) -/
def pauseProduction (o : ManufacturingOrder) (now : Int) :
    Except String ManufacturingOrder :=
  if o.status ≠ OrderStatus.in_progress then
    .error "Solo se pueden pausar órdenes en progreso"
  else
    .ok { o with
          status := OrderStatus.paused
          timeTracker := o.timeTracker.map (fun t =>
            { t with isPaused := true, pauseStartTime := some now }) }

/-- Embeds `ManufacturingOrderUseCases.resumeProduction` (lines 184-197) fused with
`MongoManufacturingOrderRepository.resumeProduction` (lines 142-172): only
paused orders resume; the repository returns `null` (an error at the use-case
level) when the tracker or its `pauseStartTime` is missing, and otherwise folds
the rounded pause interval into `totalPauseMinutes`, clears `pauseStartTime`
and unpauses.  (`totalPauseMinutes || 0` is the identity on an `Int` field.) -/
def resumeProduction (o : ManufacturingOrder) (now : Int) :
    Except String ManufacturingOrder :=
  if o.status ≠ OrderStatus.paused then
    .error "Solo se pueden reanudar órdenes pausadas"
  else
    match o.timeTracker with
    | none => .error "Error al reanudar la producción"
    | some t =>
      match t.pauseStartTime with
      | none => .error "Error al reanudar la producción"
      | some pst =>
        .ok { o with
              status := OrderStatus.in_progress
              timeTracker := some
                { t with
                  isPaused := false
                  totalPauseMinutes :=
                    t.totalPauseMinutes + jsRoundDiv (now - pst) (1000 * 60)
                  pauseStartTime := none } }

/-- Embeds `ManufacturingOrderUseCases.completeComponent` (lines 203-225) fused with
`MongoManufacturingOrderRepository.completeComponent` (lines 195-217). -/
def completeComponent (o : ManufacturingOrder) (cid : String) (now : Int) :
    Except String ManufacturingOrder :=
  if o.status ≠ OrderStatus.in_progress ∧ o.status ≠ OrderStatus.paused then
    .error "Solo se pueden marcar componentes en órdenes en progreso o pausadas"
  else
    match findComponent o.components cid with
    | none => .error "Componente no encontrado en esta orden"
    | some comp =>
      if comp.isCompleted then .error "Este componente ya está completado"
      else
        .ok { o with
              components := updateFirstComponent o.components cid (fun c =>
                { c with
                  isCompleted := true
                  completedAt := some now
                  quantityCompleted := c.quantityRequired }) }

/-- Embeds `ManufacturingOrderUseCases.completeOrder` (lines 227-243), the lifecycle
transition only (the best-effort stock sync is `completeOrderFull`): requires
in-progress or paused status and every component completed. -/
def completeOrder (o : ManufacturingOrder) (now : Int) :
    Except String ManufacturingOrder :=
  if o.status ≠ OrderStatus.in_progress ∧ o.status ≠ OrderStatus.paused then
    .error "Solo se pueden completar órdenes en progreso o pausadas"
  else if ¬ (o.components.all (fun c => c.isCompleted)) then
    .error "No se puede completar la orden: faltan componentes por fabricar"
  else
    .ok { o with status := OrderStatus.completed, completedAt := some now }

/-- Embeds `ManufacturingOrderUseCases.completeOrder` (lines 227-259) with the
try/catch stock update: on success the model's quantity is raised by the
order's `quantity` when the model resolves; a missing model, or a storage
failure (`stockWriteFails` models `updateQuantity` throwing into the catch
block), leaves the inventory unchanged without failing the completion. -/
def completeOrderFull (inv : List InventoryItem) (o : ManufacturingOrder)
    (now : Int) (stockWriteFails : Bool) :
    Except String (ManufacturingOrder × List InventoryItem) :=
  match completeOrder o now with
  | .error e => .error e
  | .ok o2 =>
    let inv2 :=
      if stockWriteFails then inv
      else
        match findItemById inv o.modelId with
        | some currentModel =>
          updateItemQuantity inv o.modelId (currentModel.quantity + o.quantity)
        | none => inv
    .ok (o2, inv2)

/-- Embeds `ManufacturingOrderUseCases.cancelOrder` (lines 262-279) fused with
`MongoManufacturingOrderRepository.cancelOrder`: completed and
already-cancelled orders are both rejected. -/
def cancelOrder (o : ManufacturingOrder) : Except String ManufacturingOrder :=
  if o.status = OrderStatus.completed then
    .error "No se puede cancelar una orden completada"
  else if o.status = OrderStatus.cancelled then
    .error "Esta orden ya está cancelada"
  else
    .ok { o with status := OrderStatus.cancelled }

/-- Embeds `ManufacturingOrderUseCases.startComponentProduction` (lines 326-352) fused
with the repository update (lines 320-339): requires in-progress/paused order,
an existing, incomplete component, and no active (unpaused) tracker; installs a
fresh per-component tracker. -/
def startComponentProduction (o : ManufacturingOrder) (cid : String) (now : Int) :
    Except String ManufacturingOrder :=
  if o.status ≠ OrderStatus.in_progress ∧ o.status ≠ OrderStatus.paused then
    .error "Solo se pueden iniciar componentes en órdenes en progreso o pausadas"
  else
    match findComponent o.components cid with
    | none => .error "Componente no encontrado en esta orden"
    | some comp =>
      if comp.isCompleted then .error "Este componente ya está completado"
      else if (comp.timeTracker.map (fun t => !t.isPaused)).getD false then
        .error "Este componente ya tiene un cronómetro activo"
      else
        .ok { o with
              components := updateFirstComponent o.components cid (fun c =>
                { c with
                  timeTracker := some
                    { startTime := now
                      totalTimeMinutes := 0
                      isPaused := false
                      totalPauseMinutes := 0 }
                  startedAt := some now }) }

/-- Embeds `ManufacturingOrderUseCases.pauseComponentProduction` (lines 354-372) fused
with the repository update (lines 341-355): NO order-status guard; requires the
component to exist with a tracker that is not already paused. -/
def pauseComponentProduction (o : ManufacturingOrder) (cid : String) (now : Int) :
    Except String ManufacturingOrder :=
  match findComponent o.components cid with
  | none => .error "Componente no encontrado o sin cronómetro activo"
  | some comp =>
    match comp.timeTracker with
    | none => .error "Componente no encontrado o sin cronómetro activo"
    | some t =>
      if t.isPaused then .error "El cronómetro del componente ya está pausado"
      else
        .ok { o with
              components := updateFirstComponent o.components cid (fun c =>
                { c with
                  timeTracker := c.timeTracker.map (fun tt =>
                    { tt with isPaused := true, pauseStartTime := some now }) }) }

/-- Embeds `ManufacturingOrderUseCases.resumeComponentProduction` (lines 374-392)
fused with the repository update (lines 357-389): NO order-status guard; the
component must have a paused tracker with `pauseStartTime` present, whose
rounded interval is folded into `totalPauseMinutes`. -/
def resumeComponentProduction (o : ManufacturingOrder) (cid : String) (now : Int) :
    Except String ManufacturingOrder :=
  match findComponent o.components cid with
  | none => .error "Componente no encontrado o sin cronómetro activo"
  | some comp =>
    match comp.timeTracker with
    | none => .error "Componente no encontrado o sin cronómetro activo"
    | some t =>
      if ¬ t.isPaused then .error "El cronómetro del componente no está pausado"
      else
        match t.pauseStartTime with
        | none => .error "Error al reanudar el cronómetro del componente"
        | some pst =>
          .ok { o with
                components := updateFirstComponent o.components cid (fun c =>
                  { c with
                    timeTracker := c.timeTracker.map (fun tt =>
                      { tt with
                        isPaused := false
                        totalPauseMinutes :=
                          t.totalPauseMinutes + jsRoundDiv (now - pst) (1000 * 60)
                        pauseStartTime := none }) }) }

/-- One entry of the material payload accepted by
`ManufacturingOrderUseCases.updateComponentMaterials`. -/
structure MaterialAdjustment where
  materialId : String
  actualQuantity : Int
  notes : Option String := none
  adjustedBy : Option String := none
deriving DecidableEq, Repr

/-- The resolution loop of `updateComponentMaterials` (lines 415-436): each
entry is looked up in the inventory (missing ids silently dropped), the
previous `plannedQuantity` is kept when the material already appears in the
component's list (JS `existing?.plannedQuantity || 1`: absent OR zero falls
back to `1`). -/
def resolveMaterialUsage (inv : List InventoryItem) (comp : ComponentProgress)
    (materials : List MaterialAdjustment) (now : Int) : List MaterialUsage :=
  materials.filterMap (fun materialData =>
    (findItemById inv materialData.materialId).map (fun material =>
      let plannedQuantity :=
        match (comp.materialUsage.find?
            (fun m => m.materialId == materialData.materialId)) with
        | some existing =>
          if existing.plannedQuantity = 0 then 1 else existing.plannedQuantity
        | none => 1
      { materialId := material.id
        materialName := material.name
        materialSku := material.sku
        plannedQuantity := plannedQuantity
        actualQuantity := materialData.actualQuantity
        unit := material.unit.getD "unidad"
        notes := materialData.notes
        adjustedBy := materialData.adjustedBy
        adjustedAt := some now }))

/-- Embeds `ManufacturingOrderUseCases.updateComponentMaterials` (lines 399-444) fused
with the repository bulk replace (lines 414-426): requires in-progress/paused
order and an existing, incomplete component. -/
def updateComponentMaterials (inv : List InventoryItem) (o : ManufacturingOrder)
    (cid : String) (materials : List MaterialAdjustment) (now : Int) :
    Except String ManufacturingOrder :=
  if o.status ≠ OrderStatus.in_progress ∧ o.status ≠ OrderStatus.paused then
    .error "Solo se pueden ajustar materiales en órdenes en progreso o pausadas"
  else
    match findComponent o.components cid with
    | none => .error "Componente no encontrado en esta orden"
    | some comp =>
      if comp.isCompleted then
        .error "No se pueden ajustar materiales en un componente ya completado"
      else
        .ok { o with
              components := updateFirstComponent o.components cid (fun c =>
                { c with
                  materialUsage := resolveMaterialUsage inv comp materials now }) }

/-- Embeds `ManufacturingOrderUseCases.addMaterialToComponent` (lines 446-475) fused
with the repository `$push` (lines 428-442): NO order-status guard and no
completed-component guard; requires only that the component exists in the
order and the material exists in the inventory.
(`actualQuantity || 0` maps an absent value to `0`.) -/
def addMaterialToComponent (inv : List InventoryItem) (o : ManufacturingOrder)
    (cid : String) (materialId : String) (plannedQuantity : Int)
    (actualQuantity : Option Int) : Except String ManufacturingOrder :=
  match findComponent o.components cid with
  | none => .error "Componente no encontrado en esta orden"
  | some _ =>
    match findItemById inv materialId with
    | none => .error "Material no encontrado en inventario"
    | some material =>
      let newMaterial : MaterialUsage :=
        { materialId := material.id
          materialName := material.name
          materialSku := material.sku
          plannedQuantity := plannedQuantity
          actualQuantity := match actualQuantity with
            | some a => if a = 0 then 0 else a
            | none => 0
          unit := material.unit.getD "unidad" }
      .ok { o with
            components := updateFirstComponent o.components cid (fun c =>
              { c with materialUsage := c.materialUsage ++ [newMaterial] }) }

end ManufacturingOrderUseCases

/-- The slice of `Partial<ProductionCard>` exercised by the update endpoints:
`ProductionCardUseCases.updateCard` forwards an arbitrary partial record to the
repository with no status guard. -/
structure UpdateProductionCardRequest where
  notes : Option String := none
  dueDate : Option Int := none
  quantity : Option Int := none
  priority : Option CardPriority := none
deriving DecidableEq, Repr

namespace ProductionCardUseCases

/-- Embeds `ProductionCardUseCases.updateCard` (lines 75-87) fused with
`MongoProductionCardRepository.update`: NO status guard of any kind — the only
check is that the card exists. -/
def updateCard (c : ProductionCard) (u : UpdateProductionCardRequest) :
    Except String ProductionCard :=
  .ok { c with
        notes := match u.notes with | some n => some n | none => c.notes
        dueDate := u.dueDate.getD c.dueDate
        quantity := u.quantity.getD c.quantity
        priority := match u.priority with | some p => some p | none => c.priority }

/-- Embeds `ProductionCardUseCases.startProduction` (lines 110-123) fused with
`MongoProductionCardRepository.startProduction` (lines 142-160). -/
def startCardProduction (c : ProductionCard) (now : Int) :
    Except String ProductionCard :=
  if c.status ≠ CardStatus.pending then
    .error "Solo se pueden iniciar tarjetas pendientes"
  else
    .ok { c with
          status := CardStatus.in_progress
          startedAt := some now
          timeTracker := some
            { startTime := now
              totalTimeMinutes := 0
              isPaused := false
              totalPauseMinutes := 0 } }

/-- Embeds `ProductionCardUseCases.pauseProduction` (lines 125-138) fused with
`MongoProductionCardRepository.pauseProduction` (lines 162-177). -/
def pauseCardProduction (c : ProductionCard) (now : Int) :
    Except String ProductionCard :=
  if c.status ≠ CardStatus.in_progress then
    .error "Solo se pueden pausar tarjetas en progreso"
  else
    .ok { c with
          status := CardStatus.paused
          timeTracker := c.timeTracker.map (fun t =>
            { t with isPaused := true, pauseStartTime := some now }) }

/-- Embeds `ProductionCardUseCases.resumeProduction` (lines 140-153) fused with
`MongoProductionCardRepository.resumeProduction` (lines 179-209). -/
def resumeCardProduction (c : ProductionCard) (now : Int) :
    Except String ProductionCard :=
  if c.status ≠ CardStatus.paused then
    .error "Solo se pueden reanudar tarjetas pausadas"
  else
    match c.timeTracker with
    | none => .error "Error al reanudar la producción"
    | some t =>
      match t.pauseStartTime with
      | none => .error "Error al reanudar la producción"
      | some pst =>
        .ok { c with
              status := CardStatus.in_progress
              timeTracker := some
                { t with
                  isPaused := false
                  totalPauseMinutes :=
                    t.totalPauseMinutes + jsRoundDiv (now - pst) (1000 * 60)
                  pauseStartTime := none } }

/-- Embeds `ProductionCardUseCases.completeComponent` (lines 159-181) fused with
`MongoProductionCardRepository.completeComponent` (lines 232-254). -/
def completeCardComponent (c : ProductionCard) (cid : String) (now : Int) :
    Except String ProductionCard :=
  if c.status ≠ CardStatus.in_progress ∧ c.status ≠ CardStatus.paused then
    .error "Solo se pueden marcar componentes en tarjetas en progreso o pausadas"
  else
    match findComponent c.components cid with
    | none => .error "Componente no encontrado en esta tarjeta"
    | some comp =>
      if comp.isCompleted then .error "Este componente ya está completado"
      else
        .ok { c with
              components := updateFirstComponent c.components cid (fun x =>
                { x with
                  isCompleted := true
                  completedAt := some now
                  quantityCompleted := x.quantityRequired }) }

/-- Embeds `ProductionCardUseCases.completeCard` (lines 183-199), the lifecycle
transition only: requires in-progress or paused status and every component
completed. -/
def completeCard (c : ProductionCard) (now : Int) : Except String ProductionCard :=
  if c.status ≠ CardStatus.in_progress ∧ c.status ≠ CardStatus.paused then
    .error "Solo se pueden completar tarjetas en progreso o pausadas"
  else if ¬ (c.components.all (fun x => x.isCompleted)) then
    .error "No se puede completar la tarjeta: faltan componentes por fabricar"
  else
    .ok { c with status := CardStatus.completed, completedAt := some now }

/-- Embeds `ProductionCardUseCases.completeCard` (lines 183-216) with the try/catch
stock update: each completed card adds exactly `1` to the model's quantity when
the model resolves; a missing model or a storage failure (`stockWriteFails`)
leaves the inventory unchanged without failing the completion. -/
def completeCardFull (inv : List InventoryItem) (c : ProductionCard)
    (now : Int) (stockWriteFails : Bool) :
    Except String (ProductionCard × List InventoryItem) :=
  match completeCard c now with
  | .error e => .error e
  | .ok c2 =>
    let inv2 :=
      if stockWriteFails then inv
      else
        match findItemById inv c.modelId with
        | some currentModel =>
          updateItemQuantity inv c.modelId (currentModel.quantity + 1)
        | none => inv
    .ok (c2, inv2)

/-- Embeds `ProductionCardUseCases.cancelCard` (lines 218-231) fused with
`MongoProductionCardRepository.cancelCard`: ONLY completed cards are rejected —
there is no already-cancelled check, unlike `cancelOrder`. -/
def cancelCard (c : ProductionCard) : Except String ProductionCard :=
  if c.status = CardStatus.completed then
    .error "No se puede cancelar una tarjeta completada"
  else
    .ok { c with status := CardStatus.cancelled }

/-- Embeds `ProductionCardUseCases.updateCardPriority` (lines 311-327): rejected on
completed or cancelled cards, otherwise sets `priority` via the repository. -/
def updateCardPriority (c : ProductionCard) (priority : CardPriority) :
    Except String ProductionCard :=
  if c.status = CardStatus.completed ∨ c.status = CardStatus.cancelled then
    .error "No se puede cambiar la prioridad de una tarjeta completada o cancelada"
  else
    .ok { c with priority := some priority }

/-- Embeds `ProductionCardUseCases.startComponentProduction` (lines 250-268) fused
with the repository update (lines 309-328): NO card-status guard and NO
active-tracker guard — any existing tracker is silently replaced by a fresh
one, resetting `startTime` and discarding `totalPauseMinutes`. -/
def startComponentProduction (c : ProductionCard) (cid : String) (now : Int) :
    Except String ProductionCard :=
  match findComponent c.components cid with
  | none => .error "Componente no encontrado en esta tarjeta"
  | some comp =>
    if comp.isCompleted then .error "Este componente ya está completado"
    else
      .ok { c with
            components := updateFirstComponent c.components cid (fun x =>
              { x with
                timeTracker := some
                  { startTime := now
                    totalTimeMinutes := 0
                    isPaused := false
                    totalPauseMinutes := 0 }
                startedAt := some now }) }

/-- Embeds `ProductionCardUseCases.pauseComponentProduction` (lines 270-277) fused
with the repository update (lines 330-344): NO guard at all beyond the Mongo
match on card and component id — pausing succeeds on any status and even
re-pauses, resetting `pauseStartTime`.  (The `$set` on a component without a
tracker would create a partial subdocument in Mongo; that corner is left as
the tracker staying absent here, and no claim rests on it.) -/
def pauseComponentProduction (c : ProductionCard) (cid : String) (now : Int) :
    Except String ProductionCard :=
  match findComponent c.components cid with
  | none => .error "Error al pausar la producción del componente"
  | some _ =>
    .ok { c with
          components := updateFirstComponent c.components cid (fun x =>
            { x with
              timeTracker := x.timeTracker.map (fun t =>
                { t with isPaused := true, pauseStartTime := some now }) }) }

/-- Embeds `ProductionCardUseCases.resumeComponentProduction` (lines 279-286) fused
with the repository update (lines 346-378): the repository requires the
component's tracker and `pauseStartTime` to exist (null, hence an error,
otherwise) and folds the rounded pause interval into `totalPauseMinutes`. -/
def resumeComponentProduction (c : ProductionCard) (cid : String) (now : Int) :
    Except String ProductionCard :=
  match findComponent c.components cid with
  | none => .error "Error al reanudar la producción del componente"
  | some comp =>
    match comp.timeTracker with
    | none => .error "Error al reanudar la producción del componente"
    | some t =>
      match t.pauseStartTime with
      | none => .error "Error al reanudar la producción del componente"
      | some pst =>
        .ok { c with
              components := updateFirstComponent c.components cid (fun x =>
                { x with
                  timeTracker := x.timeTracker.map (fun tt =>
                    { tt with
                      isPaused := false
                      totalPauseMinutes :=
                        t.totalPauseMinutes + jsRoundDiv (now - pst) (1000 * 60)
                      pauseStartTime := none }) }) }

/-- Embeds `ProductionCardUseCases.updateComponentMaterials` (lines 293-300) fused
with the repository bulk replace (lines 403-415): NO guard — the raw material
list replaces the component's `materialUsage`. -/
def updateComponentMaterials (c : ProductionCard) (cid : String)
    (materials : List MaterialUsage) : Except String ProductionCard :=
  match findComponent c.components cid with
  | none => .error "Error al actualizar materiales del componente"
  | some _ =>
    .ok { c with
          components := updateFirstComponent c.components cid (fun x =>
            { x with materialUsage := materials }) }

/-- Embeds `ProductionCardUseCases.addMaterialToComponent` (lines 302-309) fused with
the repository `$push` (lines 417-431): NO guard — the raw material is
appended. -/
def addMaterialToComponent (c : ProductionCard) (cid : String)
    (material : MaterialUsage) : Except String ProductionCard :=
  match findComponent c.components cid with
  | none => .error "Error al agregar material al componente"
  | some _ =>
    .ok { c with
          components := updateFirstComponent c.components cid (fun x =>
            { x with materialUsage := x.materialUsage ++ [material] }) }

end ProductionCardUseCases

namespace MongoManufacturingOrderRepository

/-- Embeds `MongoManufacturingOrderRepository.getCurrentProductionTime` (lines
174-193) over the modelled order store: a missing order or absent tracker
reads as `0`; otherwise elapsed wall time minus the current pause (when paused
with a recorded `pauseStartTime`) minus the accumulated pause minutes, rounded
to whole minutes and clamped at zero. -/
def getCurrentProductionTime (db : List ManufacturingOrder) (id : String)
    (now : Int) : Int :=
  match db.find? (fun o => o.id == id) with
  | none => 0
  | some order =>
    match order.timeTracker with
    | none => 0
    | some t =>
      let totalTime := now - t.startTime
      let totalTime :=
        match t.isPaused, t.pauseStartTime with
        | true, some pst => totalTime - (now - pst)
        | _, _ => totalTime
      let totalTime := totalTime - t.totalPauseMinutes * 60 * 1000
      max 0 (jsRoundDiv totalTime (1000 * 60))

/-- Embeds `MongoManufacturingOrderRepository.getComponentProductionTime` (lines
391-411): identical arithmetic, scoped to one component's tracker; a missing
order, component, or tracker reads as `0`. -/
def getComponentProductionTime (db : List ManufacturingOrder) (orderId : String)
    (componentId : String) (now : Int) : Int :=
  match db.find? (fun o => o.id == orderId) with
  | none => 0
  | some order =>
    match findComponent order.components componentId with
    | none => 0
    | some component =>
      match component.timeTracker with
      | none => 0
      | some t =>
        let totalTime := now - t.startTime
        let totalTime :=
          match t.isPaused, t.pauseStartTime with
          | true, some pst => totalTime - (now - pst)
          | _, _ => totalTime
        let totalTime := totalTime - t.totalPauseMinutes * 60 * 1000
        max 0 (jsRoundDiv totalTime (1000 * 60))

end MongoManufacturingOrderRepository

namespace MongoProductionCardRepository

/-- Embeds `MongoProductionCardRepository.getCurrentProductionTime` (lines 211-230):
the card-level copy of the same arithmetic. -/
def getCurrentProductionTime (db : List ProductionCard) (id : String)
    (now : Int) : Int :=
  match db.find? (fun c => c.id == id) with
  | none => 0
  | some card =>
    match card.timeTracker with
    | none => 0
    | some t =>
      let totalTime := now - t.startTime
      let totalTime :=
        match t.isPaused, t.pauseStartTime with
        | true, some pst => totalTime - (now - pst)
        | _, _ => totalTime
      let totalTime := totalTime - t.totalPauseMinutes * 60 * 1000
      max 0 (jsRoundDiv totalTime (1000 * 60))

/-- Embeds `MongoProductionCardRepository.getComponentProductionTime` (lines 380-400):
the card-component copy of the same arithmetic. -/
def getComponentProductionTime (db : List ProductionCard) (cardId : String)
    (componentId : String) (now : Int) : Int :=
  match db.find? (fun c => c.id == cardId) with
  | none => 0
  | some card =>
    match findComponent card.components componentId with
    | none => 0
    | some component =>
      match component.timeTracker with
      | none => 0
      | some t =>
        let totalTime := now - t.startTime
        let totalTime :=
          match t.isPaused, t.pauseStartTime with
          | true, some pst => totalTime - (now - pst)
          | _, _ => totalTime
        let totalTime := totalTime - t.totalPauseMinutes * 60 * 1000
        max 0 (jsRoundDiv totalTime (1000 * 60))

/-- The `priorityOrder` table of `findAll` (lines 96-101) combined with the
JS lookup `priorityOrder[a.priority] || 3`: a missing (or unknown) priority
reads as `3`, i.e. normal. -/
def priorityRank : Option CardPriority → Int
  | some CardPriority.urgent => 1
  | some CardPriority.high => 2
  | some CardPriority.normal => 3
  | some CardPriority.low => 4
  | none => 3

/-- The ordering the `findAll` comparator (lines 106-117) sorts by: strictly
higher priority first, and ascending `dueDate` between equal priorities.
`cardLE a b` holds exactly when the comparator returns a value `≤ 0` on
`(a, b)`. -/
def cardLE (a b : ProductionCard) : Prop :=
  priorityRank a.priority < priorityRank b.priority ∨
    (priorityRank a.priority = priorityRank b.priority ∧ a.dueDate ≤ b.dueDate)

instance : DecidableRel cardLE := fun a b => by
  unfold cardLE
  infer_instance

instance : IsTotal ProductionCard cardLE where
  total a b := by
    unfold cardLE
    omega

instance : IsTrans ProductionCard cardLE where
  trans a b c hab hbc := by
    unfold cardLE at hab hbc ⊢
    omega

/-- The default sort of `MongoProductionCardRepository.findAll` (lines
103-119): the matching cards are sorted by the priority-then-due-date
comparator.  JS `Array.prototype.sort` is a stable comparison sort consistent
with its comparator; it is modelled as insertion sort on `cardLE`, which is
stable and consistent with the same comparator. -/
def findAllSorted (cards : List ProductionCard) : List ProductionCard :=
  cards.insertionSort cardLE

end MongoProductionCardRepository

/-- The elapsed-time expression as the spec states it (§4.3, and claim C5):
`max(0, round(((now − startTime) − totalPauseMinutes·60000 − (if isPaused and
pauseStartTime is set, now − pauseStartTime, else 0)) / 60000))`.  Written from
the spec's words, to be compared against the four repository functions. -/
def specElapsed (t : TimeTracker) (now : Int) : Int :=
  max 0 (jsRoundDiv
    ((now - t.startTime) - t.totalPauseMinutes * 60000 -
      (if t.isPaused then
        match t.pauseStartTime with
        | some pst => now - pst
        | none => 0
      else 0))
    60000)

/-- A pause-at-`p` / resume-at-`r` cycle sequence on an order, chaining the
use-case operations. -/
def runOrderCycles (o : ManufacturingOrder) :
    List (Int × Int) → Except String ManufacturingOrder
  | [] => .ok o
  | (p, r) :: rest =>
    match ManufacturingOrderUseCases.pauseProduction o p with
    | .error e => .error e
    | .ok o1 =>
      match ManufacturingOrderUseCases.resumeProduction o1 r with
      | .error e => .error e
      | .ok o2 => runOrderCycles o2 rest

/-- A pause/resume cycle sequence on a production card. -/
def runCardCycles (c : ProductionCard) :
    List (Int × Int) → Except String ProductionCard
  | [] => .ok c
  | (p, r) :: rest =>
    match ProductionCardUseCases.pauseCardProduction c p with
    | .error e => .error e
    | .ok c1 =>
      match ProductionCardUseCases.resumeCardProduction c1 r with
      | .error e => .error e
      | .ok c2 => runCardCycles c2 rest

/-! Concrete fixtures used by counterexamples and witnesses. -/

/-- A manufacturable model whose `estimatedManufacturingTime` is present but
zero — the JS `|| 1` fallback then replaces it by `1`. -/
def zeroTimeModel : InventoryItem :=
  { id := "m1"
    name := "Model"
    sku := "SKU-M"
    itemType := InventoryType.model
    quantity := 0
    estimatedManufacturingTime := some 0
    canManufacture := some true }

/-- A manufacturable model with a two-hour unit time. -/
def twoHourModel : InventoryItem :=
  { id := "m2"
    name := "Model2"
    sku := "SKU-M2"
    itemType := InventoryType.model
    quantity := 7
    estimatedManufacturingTime := some 2
    canManufacture := some true }

/-- A creation request for one unit of `zeroTimeModel`. -/
def zeroTimeRequest : CreateManufacturingOrderRequest :=
  { modelId := "m1", quantity := 1, clientName := "c", dueDate := 0 }

/-- A creation request for three units of `twoHourModel`. -/
def twoHourRequest : CreateManufacturingOrderRequest :=
  { modelId := "m2", quantity := 3, clientName := "c", dueDate := 0 }

/-- An incomplete component carrying an active (unpaused) timer with some
accumulated pause history. -/
def activeTimerComponent : ComponentProgress :=
  { componentId := "c1"
    componentName := "Comp"
    componentSku := "SKU-C"
    quantityRequired := 1
    quantityCompleted := 0
    isCompleted := false
    timeTracker := some
      { startTime := 0, isPaused := false, totalPauseMinutes := 42 } }

/-- A completed order that still contains `activeTimerComponent`. -/
def completedOrderFixture : ManufacturingOrder :=
  { id := "o1"
    modelId := "m1"
    modelName := "Model"
    modelSku := "SKU-M"
    quantity := 1
    clientName := "c"
    dueDate := 0
    createdDate := 0
    status := OrderStatus.completed
    components := [activeTimerComponent]
    estimatedHours := 1 }

/-- An already-cancelled production card. -/
def cancelledCardFixture : ProductionCard :=
  { id := "pc1"
    orderId := "o1"
    orderName := "c"
    cardNumber := 1
    totalCards := 1
    modelId := "m1"
    modelName := "Model"
    modelSku := "SKU-M"
    quantity := 1
    dueDate := 0
    status := CardStatus.cancelled
    components := []
    estimatedHours := 1 }

/-- A pending card containing `activeTimerComponent` (used to exhibit the
card-level component-timer double start). -/
def pendingCardFixture : ProductionCard :=
  { id := "pc2"
    orderId := "o1"
    orderName := "c"
    cardNumber := 1
    totalCards := 1
    modelId := "m1"
    modelName := "Model"
    modelSku := "SKU-M"
    quantity := 1
    dueDate := 0
    status := CardStatus.pending
    components := [activeTimerComponent]
    estimatedHours := 1 }

/-- An in-progress order with every component completed, ready to finish. -/
def finishableOrderFixture : ManufacturingOrder :=
  { id := "o2"
    modelId := "m2"
    modelName := "Model2"
    modelSku := "SKU-M2"
    quantity := 5
    clientName := "c"
    dueDate := 0
    createdDate := 0
    status := OrderStatus.in_progress
    components :=
      [{ componentId := "c1"
         componentName := "Comp"
         componentSku := "SKU-C"
         quantityRequired := 1
         quantityCompleted := 1
         isCompleted := true }]
    estimatedHours := 10 }

/-- An in-progress card over the same model, every component completed. -/
def finishableCardFixture : ProductionCard :=
  { id := "pc3"
    orderId := "o2"
    orderName := "c"
    cardNumber := 1
    totalCards := 5
    modelId := "m2"
    modelName := "Model2"
    modelSku := "SKU-M2"
    quantity := 1
    dueDate := 0
    status := CardStatus.in_progress
    components :=
      [{ componentId := "c1"
         componentName := "Comp"
         componentSku := "SKU-C"
         quantityRequired := 1
         quantityCompleted := 1
         isCompleted := true }]
    estimatedHours := 2 }

/-- An in-progress order with one incomplete component. -/
def unfinishedOrderFixture : ManufacturingOrder :=
  { finishableOrderFixture with
    id := "o3"
    components :=
      [{ componentId := "c1"
         componentName := "Comp"
         componentSku := "SKU-C"
         quantityRequired := 1
         quantityCompleted := 0
         isCompleted := false }] }

/-- An in-progress order with a fresh, unpaused tracker (for the cycle and
elapsed-time witnesses). -/
def runningOrderFixture : ManufacturingOrder :=
  { finishableOrderFixture with
    id := "o4"
    startedAt := some 0
    timeTracker := some { startTime := 0, isPaused := false, totalPauseMinutes := 0 } }

/-- An in-progress card with a fresh, unpaused tracker. -/
def runningCardFixture : ProductionCard :=
  { finishableCardFixture with
    id := "pc4"
    startedAt := some 0
    timeTracker := some { startTime := 0, isPaused := false, totalPauseMinutes := 0 } }

/-- A paused tracker fixture: started at 0, paused at 60000 ms. -/
def pausedTrackerFixture : TimeTracker :=
  { startTime := 0
    isPaused := true
    pauseStartTime := some 60000
    totalPauseMinutes := 0 }

/-- A paused order holding `pausedTrackerFixture`. -/
def pausedOrderFixture : ManufacturingOrder :=
  { finishableOrderFixture with
    id := "o5"
    status := OrderStatus.paused
    timeTracker := some pausedTrackerFixture }

/-- A paused card holding `pausedTrackerFixture`. -/
def pausedCardFixture : ProductionCard :=
  { finishableCardFixture with
    id := "pc5"
    status := CardStatus.paused
    timeTracker := some pausedTrackerFixture }

/-! Helper lemmas shared by the claim theorems. -/

theorem elapsed_core_eq_specElapsed (t : TimeTracker) (now : Int) :
    max 0 (jsRoundDiv
      ((match t.isPaused, t.pauseStartTime with
        | true, some pst => (now - t.startTime) - (now - pst)
        | _, _ => now - t.startTime) - t.totalPauseMinutes * 60 * 1000)
      (1000 * 60)) = specElapsed t now := by
  have h6 : (1000 : Int) * 60 = 60000 := by norm_num
  unfold specElapsed
  rw [h6]
  cases hp : t.isPaused <;> cases hpst : t.pauseStartTime <;>
    · simp only [hp, hpst, if_true, if_false, Bool.false_eq_true, if_neg]
      congr 1
      congr 1
      omega

theorem specElapsed_nonneg (t : TimeTracker) (now : Int) :
    0 ≤ specElapsed t now := by
  unfold specElapsed
  exact le_max_left 0 _

/-- C5: for every TimeTracker at order, card, or component level and every
query time `now ≥ startTime`, the elapsed-time query returns
`max(0, round(((now − startTime) − totalPauseMinutes·60000 − (if isPaused and
pauseStartTime is set, now − pauseStartTime, else 0)) / 60000))` whole minutes;
the result is always ≥ 0 and, for a fixed `now`, identical at all three
nesting levels (all four repository copies return `specElapsed`). -/
theorem C5_elapsed_time_formula :
    (∀ (db : List ManufacturingOrder) (id : String) (o : ManufacturingOrder)
        (t : TimeTracker) (now : Int),
        db.find? (fun x => x.id == id) = some o → o.timeTracker = some t →
        t.startTime ≤ now →
        MongoManufacturingOrderRepository.getCurrentProductionTime db id now =
          specElapsed t now) ∧
    (∀ (db : List ProductionCard) (id : String) (c : ProductionCard)
        (t : TimeTracker) (now : Int),
        db.find? (fun x => x.id == id) = some c → c.timeTracker = some t →
        t.startTime ≤ now →
        MongoProductionCardRepository.getCurrentProductionTime db id now =
          specElapsed t now) ∧
    (∀ (db : List ManufacturingOrder) (oid cid : String) (o : ManufacturingOrder)
        (comp : ComponentProgress) (t : TimeTracker) (now : Int),
        db.find? (fun x => x.id == oid) = some o →
        findComponent o.components cid = some comp →
        comp.timeTracker = some t → t.startTime ≤ now →
        MongoManufacturingOrderRepository.getComponentProductionTime db oid cid now =
          specElapsed t now) ∧
    (∀ (db : List ProductionCard) (pid cid : String) (c : ProductionCard)
        (comp : ComponentProgress) (t : TimeTracker) (now : Int),
        db.find? (fun x => x.id == pid) = some c →
        findComponent c.components cid = some comp →
        comp.timeTracker = some t → t.startTime ≤ now →
        MongoProductionCardRepository.getComponentProductionTime db pid cid now =
          specElapsed t now) ∧
    (∀ (db : List ManufacturingOrder) (id : String) (now : Int),
        0 ≤ MongoManufacturingOrderRepository.getCurrentProductionTime db id now) ∧
    (∀ (db : List ProductionCard) (id : String) (now : Int),
        0 ≤ MongoProductionCardRepository.getCurrentProductionTime db id now) := by
  refine ⟨?_, ?_, ?_, ?_, ?_, ?_⟩
  · intro db id o t now hfind htr _
    unfold MongoManufacturingOrderRepository.getCurrentProductionTime
    simp only [hfind, htr]
    exact elapsed_core_eq_specElapsed t now
  · intro db id c t now hfind htr _
    unfold MongoProductionCardRepository.getCurrentProductionTime
    simp only [hfind, htr]
    exact elapsed_core_eq_specElapsed t now
  · intro db oid cid o comp t now hfind hcomp htr _
    unfold MongoManufacturingOrderRepository.getComponentProductionTime
    simp only [hfind, hcomp, htr]
    exact elapsed_core_eq_specElapsed t now
  · intro db pid cid c comp t now hfind hcomp htr _
    unfold MongoProductionCardRepository.getComponentProductionTime
    simp only [hfind, hcomp, htr]
    exact elapsed_core_eq_specElapsed t now
  · intro db id now
    unfold MongoManufacturingOrderRepository.getCurrentProductionTime
    split
    · exact le_refl (0 : Int)
    · split
      · exact le_refl (0 : Int)
      · exact le_max_left (0 : Int) _
  · intro db id now
    unfold MongoProductionCardRepository.getCurrentProductionTime
    split
    · exact le_refl (0 : Int)
    · split
      · exact le_refl (0 : Int)
      · exact le_max_left (0 : Int) _

/-- Witness for C5 at a concrete running order: started at 0, unpaused,
queried at 120000 ms. -/
theorem C5_elapsed_time_formula_witness :
    MongoManufacturingOrderRepository.getCurrentProductionTime
      [runningOrderFixture] "o4" 120000 =
      specElapsed { startTime := 0, isPaused := false, totalPauseMinutes := 0 }
        120000 :=
  C5_elapsed_time_formula.1 [runningOrderFixture] "o4" runningOrderFixture
    { startTime := 0, isPaused := false, totalPauseMinutes := 0 } 120000
    (by decide) (by rfl) (by decide)

/-- C9: the default card listing is sorted by priority first (urgent, high,
normal, low, a missing priority ranking as normal) and ascending due date
among equal priorities, and it is a permutation of the input. -/
theorem C9_findAll_priority_then_dueDate (cards : List ProductionCard) :
    List.Sorted MongoProductionCardRepository.cardLE
      (MongoProductionCardRepository.findAllSorted cards) ∧
    (MongoProductionCardRepository.findAllSorted cards).Perm cards :=
  ⟨List.sorted_insertionSort MongoProductionCardRepository.cardLE cards,
   List.perm_insertionSort MongoProductionCardRepository.cardLE cards⟩

/-- C10: the elapsed-time queries are total — a missing order or card, a
missing component, or an absent tracker all read as 0 rather than failing. -/
theorem C10_elapsed_queries_total :
    (∀ (db : List ManufacturingOrder) (id : String) (now : Int),
        db.find? (fun x => x.id == id) = none →
        MongoManufacturingOrderRepository.getCurrentProductionTime db id now = 0) ∧
    (∀ (db : List ManufacturingOrder) (id : String) (o : ManufacturingOrder)
        (now : Int),
        db.find? (fun x => x.id == id) = some o → o.timeTracker = none →
        MongoManufacturingOrderRepository.getCurrentProductionTime db id now = 0) ∧
    (∀ (db : List ProductionCard) (id : String) (now : Int),
        db.find? (fun x => x.id == id) = none →
        MongoProductionCardRepository.getCurrentProductionTime db id now = 0) ∧
    (∀ (db : List ProductionCard) (id : String) (c : ProductionCard) (now : Int),
        db.find? (fun x => x.id == id) = some c → c.timeTracker = none →
        MongoProductionCardRepository.getCurrentProductionTime db id now = 0) ∧
    (∀ (db : List ManufacturingOrder) (oid cid : String) (now : Int),
        db.find? (fun x => x.id == oid) = none →
        MongoManufacturingOrderRepository.getComponentProductionTime db oid cid now
          = 0) ∧
    (∀ (db : List ManufacturingOrder) (oid cid : String) (o : ManufacturingOrder)
        (now : Int),
        db.find? (fun x => x.id == oid) = some o →
        findComponent o.components cid = none →
        MongoManufacturingOrderRepository.getComponentProductionTime db oid cid now
          = 0) ∧
    (∀ (db : List ManufacturingOrder) (oid cid : String) (o : ManufacturingOrder)
        (comp : ComponentProgress) (now : Int),
        db.find? (fun x => x.id == oid) = some o →
        findComponent o.components cid = some comp → comp.timeTracker = none →
        MongoManufacturingOrderRepository.getComponentProductionTime db oid cid now
          = 0) ∧
    (∀ (db : List ProductionCard) (pid cid : String) (now : Int),
        db.find? (fun x => x.id == pid) = none →
        MongoProductionCardRepository.getComponentProductionTime db pid cid now
          = 0) ∧
    (∀ (db : List ProductionCard) (pid cid : String) (c : ProductionCard)
        (now : Int),
        db.find? (fun x => x.id == pid) = some c →
        findComponent c.components cid = none →
        MongoProductionCardRepository.getComponentProductionTime db pid cid now
          = 0) ∧
    (∀ (db : List ProductionCard) (pid cid : String) (c : ProductionCard)
        (comp : ComponentProgress) (now : Int),
        db.find? (fun x => x.id == pid) = some c →
        findComponent c.components cid = some comp → comp.timeTracker = none →
        MongoProductionCardRepository.getComponentProductionTime db pid cid now
          = 0) := by
  refine ⟨?_, ?_, ?_, ?_, ?_, ?_, ?_, ?_, ?_, ?_⟩
  · intro db id now h
    unfold MongoManufacturingOrderRepository.getCurrentProductionTime
    simp only [h]
  · intro db id o now h ht
    unfold MongoManufacturingOrderRepository.getCurrentProductionTime
    simp only [h, ht]
  · intro db id now h
    unfold MongoProductionCardRepository.getCurrentProductionTime
    simp only [h]
  · intro db id c now h ht
    unfold MongoProductionCardRepository.getCurrentProductionTime
    simp only [h, ht]
  · intro db oid cid now h
    unfold MongoManufacturingOrderRepository.getComponentProductionTime
    simp only [h]
  · intro db oid cid o now h hc
    unfold MongoManufacturingOrderRepository.getComponentProductionTime
    simp only [h, hc]
  · intro db oid cid o comp now h hc ht
    unfold MongoManufacturingOrderRepository.getComponentProductionTime
    simp only [h, hc, ht]
  · intro db pid cid now h
    unfold MongoProductionCardRepository.getComponentProductionTime
    simp only [h]
  · intro db pid cid c now h hc
    unfold MongoProductionCardRepository.getComponentProductionTime
    simp only [h, hc]
  · intro db pid cid c comp now h hc ht
    unfold MongoProductionCardRepository.getComponentProductionTime
    simp only [h, hc, ht]

/-- Witness for C10: querying an empty store returns 0. -/
theorem C10_elapsed_queries_total_witness :
    MongoManufacturingOrderRepository.getCurrentProductionTime [] "missing" 99 = 0 :=
  C10_elapsed_queries_total.1 [] "missing" 99 (by rfl)

/-- C3: for an order (resp. card) in `in_progress` or `paused`, `completeOrder`
(resp. `completeCard`) succeeds iff every embedded component is completed; with
an incomplete component the call fails with the invalid-state error and no
mutated entity is produced. -/
theorem C3_complete_iff_all_components :
    (∀ (o : ManufacturingOrder) (now : Int),
        o.status = OrderStatus.in_progress ∨ o.status = OrderStatus.paused →
        ((ManufacturingOrderUseCases.completeOrder o now).isOk = true ↔
          o.components.all (fun c => c.isCompleted) = true)) ∧
    (∀ (o : ManufacturingOrder) (now : Int),
        o.status = OrderStatus.in_progress ∨ o.status = OrderStatus.paused →
        o.components.all (fun c => c.isCompleted) = false →
        ManufacturingOrderUseCases.completeOrder o now =
          .error "No se puede completar la orden: faltan componentes por fabricar") ∧
    (∀ (c : ProductionCard) (now : Int),
        c.status = CardStatus.in_progress ∨ c.status = CardStatus.paused →
        ((ProductionCardUseCases.completeCard c now).isOk = true ↔
          c.components.all (fun x => x.isCompleted) = true)) ∧
    (∀ (c : ProductionCard) (now : Int),
        c.status = CardStatus.in_progress ∨ c.status = CardStatus.paused →
        c.components.all (fun x => x.isCompleted) = false →
        ProductionCardUseCases.completeCard c now =
          .error "No se puede completar la tarjeta: faltan componentes por fabricar") := by
  refine ⟨?_, ?_, ?_, ?_⟩
  · intro o now h
    unfold ManufacturingOrderUseCases.completeOrder
    rcases h with h | h <;>
      · by_cases hall : o.components.all (fun c => c.isCompleted) = true <;>
          simp [h, hall, Except.isOk, Except.toBool]
  · intro o now h hall
    unfold ManufacturingOrderUseCases.completeOrder
    rcases h with h | h <;> simp [h, hall]
  · intro c now h
    unfold ProductionCardUseCases.completeCard
    rcases h with h | h <;>
      · by_cases hall : c.components.all (fun x => x.isCompleted) = true <;>
          simp [h, hall, Except.isOk, Except.toBool]
  · intro c now h hall
    unfold ProductionCardUseCases.completeCard
    rcases h with h | h <;> simp [h, hall]

/-- Witness for C3: a concrete in-progress order whose single component is
complete satisfies the iff. -/
theorem C3_complete_iff_all_components_witness :
    (ManufacturingOrderUseCases.completeOrder finishableOrderFixture 7).isOk = true
      ↔ finishableOrderFixture.components.all (fun c => c.isCompleted) = true :=
  C3_complete_iff_all_components.1 finishableOrderFixture 7 (Or.inl (by rfl))

theorem findItemById_updateItemQuantity (inv : List InventoryItem) (id : String)
    (q : Int) :
    findItemById (updateItemQuantity inv id q) id =
      (findItemById inv id).map (fun it => { it with quantity := q }) := by
  induction inv with
  | nil => rfl
  | cons a rest ih =>
    simp only [findItemById, updateItemQuantity, List.map_cons] at ih ⊢
    by_cases h : (a.id == id) = true
    · simp [List.find?_cons, h]
    · simp [List.find?_cons, h, -List.find?_map]
      simpa using ih

/-- C4: completing an order of quantity `Q` raises the model's stock by exactly
`Q`, completing one card raises it by exactly `1` regardless of the parent
order's quantity; a missing model or a stock-write failure leaves the
inventory unchanged while the completion itself still succeeds. -/
theorem C4_stock_sync_best_effort :
    (∀ (inv : List InventoryItem) (o : ManufacturingOrder) (now : Int)
        (m : InventoryItem),
        o.status = OrderStatus.in_progress ∨ o.status = OrderStatus.paused →
        o.components.all (fun c => c.isCompleted) = true →
        findItemById inv o.modelId = some m →
        ∃ o2 inv2,
          ManufacturingOrderUseCases.completeOrderFull inv o now false =
            .ok (o2, inv2) ∧
          o2.status = OrderStatus.completed ∧
          (findItemById inv2 o.modelId).map (fun it => it.quantity) =
            some (m.quantity + o.quantity)) ∧
    (∀ (inv : List InventoryItem) (c : ProductionCard) (now : Int)
        (m : InventoryItem),
        c.status = CardStatus.in_progress ∨ c.status = CardStatus.paused →
        c.components.all (fun x => x.isCompleted) = true →
        findItemById inv c.modelId = some m →
        ∃ c2 inv2,
          ProductionCardUseCases.completeCardFull inv c now false = .ok (c2, inv2) ∧
          c2.status = CardStatus.completed ∧
          (findItemById inv2 c.modelId).map (fun it => it.quantity) =
            some (m.quantity + 1)) ∧
    (∀ (inv : List InventoryItem) (o : ManufacturingOrder) (now : Int)
        (stockWriteFails : Bool),
        o.status = OrderStatus.in_progress ∨ o.status = OrderStatus.paused →
        o.components.all (fun c => c.isCompleted) = true →
        (findItemById inv o.modelId = none ∨ stockWriteFails = true) →
        ManufacturingOrderUseCases.completeOrderFull inv o now stockWriteFails =
          .ok ({ o with status := OrderStatus.completed, completedAt := some now },
               inv)) ∧
    (∀ (inv : List InventoryItem) (c : ProductionCard) (now : Int)
        (stockWriteFails : Bool),
        c.status = CardStatus.in_progress ∨ c.status = CardStatus.paused →
        c.components.all (fun x => x.isCompleted) = true →
        (findItemById inv c.modelId = none ∨ stockWriteFails = true) →
        ProductionCardUseCases.completeCardFull inv c now stockWriteFails =
          .ok ({ c with status := CardStatus.completed, completedAt := some now },
               inv)) := by
  refine ⟨?_, ?_, ?_, ?_⟩
  · intro inv o now m h hall hm
    refine ⟨{ o with status := OrderStatus.completed, completedAt := some now },
            updateItemQuantity inv o.modelId (m.quantity + o.quantity), ?_, rfl, ?_⟩
    · unfold ManufacturingOrderUseCases.completeOrderFull
      unfold ManufacturingOrderUseCases.completeOrder
      rcases h with h | h <;> simp [h, hall, hm]
    · rw [findItemById_updateItemQuantity, hm]
      rfl
  · intro inv c now m h hall hm
    refine ⟨{ c with status := CardStatus.completed, completedAt := some now },
            updateItemQuantity inv c.modelId (m.quantity + 1), ?_, rfl, ?_⟩
    · unfold ProductionCardUseCases.completeCardFull
      unfold ProductionCardUseCases.completeCard
      rcases h with h | h <;> simp [h, hall, hm]
    · rw [findItemById_updateItemQuantity, hm]
      rfl
  · intro inv o now stockWriteFails h hall hmiss
    unfold ManufacturingOrderUseCases.completeOrderFull
    unfold ManufacturingOrderUseCases.completeOrder
    rcases hmiss with hmiss | hmiss <;> rcases h with h | h <;>
      simp [h, hall, hmiss]
  · intro inv c now stockWriteFails h hall hmiss
    unfold ProductionCardUseCases.completeCardFull
    unfold ProductionCardUseCases.completeCard
    rcases hmiss with hmiss | hmiss <;> rcases h with h | h <;>
      simp [h, hall, hmiss]

/-- Witness for C4: completing the quantity-5 fixture order against an
inventory holding its model (stock 7) yields stock 12. -/
theorem C4_stock_sync_best_effort_witness :
    ∃ o2 inv2,
      ManufacturingOrderUseCases.completeOrderFull [twoHourModel]
        finishableOrderFixture 3 false = .ok (o2, inv2) ∧
      o2.status = OrderStatus.completed ∧
      (findItemById inv2 finishableOrderFixture.modelId).map
        (fun it => it.quantity) = some (twoHourModel.quantity + 5) :=
  C4_stock_sync_best_effort.1 [twoHourModel] finishableOrderFixture 3 twoHourModel
    (Or.inl (by rfl)) (by decide) (by decide)

theorem findComponent_updateFirstComponent (cs : List ComponentProgress)
    (cid : String) (f : ComponentProgress → ComponentProgress)
    (hf : ∀ x, (f x).componentId = x.componentId) :
    findComponent (updateFirstComponent cs cid f) cid =
      (findComponent cs cid).map f := by
  induction cs with
  | nil => rfl
  | cons a rest ih =>
    by_cases h : (a.componentId == cid) = true
    · simp [findComponent, updateFirstComponent, List.find?_cons, h, hf]
    · simp [findComponent, updateFirstComponent, List.find?_cons, h]
      simpa [findComponent] using ih

/-- C2 (amended): on a completed or cancelled order, the lifecycle transitions,
the field update, `completeComponent`, `startComponentProduction` and
`updateComponentMaterials` all fail; on a completed or cancelled card, the
lifecycle transitions, `completeComponent` and the priority update all fail
(cancel fails only on completed cards).  The remaining component-level
operations (pause/resume of a component timer and the material append on
orders; every component-level operation and the field update on cards) carry
no terminal-status guard. -/
theorem C2_terminal_state_guards :
    (∀ (o : ManufacturingOrder) (u : UpdateManufacturingOrderRequest)
        (cid : String) (now : Int) (inv : List InventoryItem)
        (mats : List ManufacturingOrderUseCases.MaterialAdjustment),
        o.status = OrderStatus.completed ∨ o.status = OrderStatus.cancelled →
        (ManufacturingOrderUseCases.updateOrder o u).isOk = false ∧
        (ManufacturingOrderUseCases.startProduction o now).isOk = false ∧
        (ManufacturingOrderUseCases.pauseProduction o now).isOk = false ∧
        (ManufacturingOrderUseCases.resumeProduction o now).isOk = false ∧
        (ManufacturingOrderUseCases.completeComponent o cid now).isOk = false ∧
        (ManufacturingOrderUseCases.completeOrder o now).isOk = false ∧
        (ManufacturingOrderUseCases.cancelOrder o).isOk = false ∧
        (ManufacturingOrderUseCases.startComponentProduction o cid now).isOk
          = false ∧
        (ManufacturingOrderUseCases.updateComponentMaterials inv o cid mats now).isOk
          = false) ∧
    (∀ (c : ProductionCard) (cid : String) (now : Int) (p : CardPriority),
        c.status = CardStatus.completed ∨ c.status = CardStatus.cancelled →
        (ProductionCardUseCases.startCardProduction c now).isOk = false ∧
        (ProductionCardUseCases.pauseCardProduction c now).isOk = false ∧
        (ProductionCardUseCases.resumeCardProduction c now).isOk = false ∧
        (ProductionCardUseCases.completeCardComponent c cid now).isOk = false ∧
        (ProductionCardUseCases.completeCard c now).isOk = false ∧
        (ProductionCardUseCases.updateCardPriority c p).isOk = false) ∧
    (∀ c : ProductionCard, c.status = CardStatus.completed →
        (ProductionCardUseCases.cancelCard c).isOk = false) := by
  refine ⟨?_, ?_, ?_⟩
  · intro o u cid now inv mats h
    rcases h with h | h <;>
      exact ⟨by simp [ManufacturingOrderUseCases.updateOrder, h, Except.isOk,
               Except.toBool],
             by simp [ManufacturingOrderUseCases.startProduction, h, Except.isOk,
               Except.toBool],
             by simp [ManufacturingOrderUseCases.pauseProduction, h, Except.isOk,
               Except.toBool],
             by simp [ManufacturingOrderUseCases.resumeProduction, h, Except.isOk,
               Except.toBool],
             by simp [ManufacturingOrderUseCases.completeComponent, h, Except.isOk,
               Except.toBool],
             by simp [ManufacturingOrderUseCases.completeOrder, h, Except.isOk,
               Except.toBool],
             by simp [ManufacturingOrderUseCases.cancelOrder, h, Except.isOk,
               Except.toBool],
             by simp [ManufacturingOrderUseCases.startComponentProduction, h,
               Except.isOk, Except.toBool],
             by simp [ManufacturingOrderUseCases.updateComponentMaterials, h,
               Except.isOk, Except.toBool]⟩
  · intro c cid now p h
    rcases h with h | h <;>
      exact ⟨by simp [ProductionCardUseCases.startCardProduction, h, Except.isOk,
               Except.toBool],
             by simp [ProductionCardUseCases.pauseCardProduction, h, Except.isOk,
               Except.toBool],
             by simp [ProductionCardUseCases.resumeCardProduction, h, Except.isOk,
               Except.toBool],
             by simp [ProductionCardUseCases.completeCardComponent, h, Except.isOk,
               Except.toBool],
             by simp [ProductionCardUseCases.completeCard, h, Except.isOk,
               Except.toBool],
             by simp [ProductionCardUseCases.updateCardPriority, h, Except.isOk,
               Except.toBool]⟩
  · intro c h
    simp [ProductionCardUseCases.cancelCard, h, Except.isOk, Except.toBool]

/-- Witness for C2 at the completed-order fixture: the guarded field update is
rejected. -/
theorem C2_terminal_state_guards_witness :
    (ManufacturingOrderUseCases.updateOrder completedOrderFixture {}).isOk
      = false :=
  (C2_terminal_state_guards.1 completedOrderFixture {} "c1" 0 [] []
    (Or.inl (by rfl))).1

/-- Counterexample for C2 as stated: pausing a component timer of a COMPLETED
order succeeds and mutates the embedded component, because
`pauseComponentProduction` carries no order-status guard. -/
theorem C2_completed_order_component_pause_succeeds :
    (ManufacturingOrderUseCases.pauseComponentProduction completedOrderFixture
      "c1" 5).isOk = true ∧
    completedOrderFixture.status = OrderStatus.completed ∧
    (ManufacturingOrderUseCases.pauseComponentProduction completedOrderFixture
      "c1" 5).toOption ≠ some completedOrderFixture := by decide

/-- C7 (amended): cancelling a pending, in-progress, or paused entity succeeds
and sets `cancelled`; cancelling a completed entity fails on both sides;
cancelling an already-cancelled ORDER fails with the invalid-state error, but
cancelling an already-cancelled CARD succeeds again (card cancel has no
repeat-cancel guard). -/
theorem C7_cancel_guards :
    (∀ o : ManufacturingOrder,
        o.status = OrderStatus.pending ∨ o.status = OrderStatus.in_progress ∨
          o.status = OrderStatus.paused →
        ManufacturingOrderUseCases.cancelOrder o =
          .ok { o with status := OrderStatus.cancelled }) ∧
    (∀ o : ManufacturingOrder, o.status = OrderStatus.completed →
        ManufacturingOrderUseCases.cancelOrder o =
          .error "No se puede cancelar una orden completada") ∧
    (∀ o : ManufacturingOrder, o.status = OrderStatus.cancelled →
        ManufacturingOrderUseCases.cancelOrder o =
          .error "Esta orden ya está cancelada") ∧
    (∀ c : ProductionCard, c.status ≠ CardStatus.completed →
        ProductionCardUseCases.cancelCard c =
          .ok { c with status := CardStatus.cancelled }) ∧
    (∀ c : ProductionCard, c.status = CardStatus.completed →
        ProductionCardUseCases.cancelCard c =
          .error "No se puede cancelar una tarjeta completada") := by
  refine ⟨?_, ?_, ?_, ?_, ?_⟩
  · intro o h
    rcases h with h | h | h <;> simp [ManufacturingOrderUseCases.cancelOrder, h]
  · intro o h
    simp [ManufacturingOrderUseCases.cancelOrder, h]
  · intro o h
    simp [ManufacturingOrderUseCases.cancelOrder, h]
  · intro c h
    simp [ProductionCardUseCases.cancelCard, h]
  · intro c h
    simp [ProductionCardUseCases.cancelCard, h]

/-- Witness for C7: the already-cancelled card fixture is cancelled again,
successfully. -/
theorem C7_cancel_guards_witness :
    ProductionCardUseCases.cancelCard cancelledCardFixture =
      .ok { cancelledCardFixture with status := CardStatus.cancelled } :=
  C7_cancel_guards.2.2.2.1 cancelledCardFixture (by decide)

/-- Counterexample for C7 as stated: cancelling an already-cancelled production
card succeeds instead of failing with an invalid-state error. -/
theorem C7_cancel_cancelled_card_succeeds :
    (ProductionCardUseCases.cancelCard cancelledCardFixture).isOk = true ∧
    cancelledCardFixture.status = CardStatus.cancelled := by decide

/-- C8 (amended): at the order-component level a start with an existing
unpaused tracker is rejected, and order- and card-level starts are rejected
unless the status is `pending`; but at the CARD-component level no
double-start check exists — starting with any existing tracker succeeds and
silently installs a fresh tracker, resetting `startTime` and discarding the
accumulated pause state. -/
theorem C8_double_start :
    (∀ (o : ManufacturingOrder) (cid : String) (now : Int)
        (comp : ComponentProgress) (t : TimeTracker),
        findComponent o.components cid = some comp →
        comp.timeTracker = some t → t.isPaused = false →
        (ManufacturingOrderUseCases.startComponentProduction o cid now).isOk
          = false) ∧
    (∀ (o : ManufacturingOrder) (now : Int), o.status ≠ OrderStatus.pending →
        (ManufacturingOrderUseCases.startProduction o now).isOk = false) ∧
    (∀ (c : ProductionCard) (now : Int), c.status ≠ CardStatus.pending →
        (ProductionCardUseCases.startCardProduction c now).isOk = false) ∧
    (∀ (c : ProductionCard) (cid : String) (now : Int) (comp : ComponentProgress),
        findComponent c.components cid = some comp → comp.isCompleted = false →
        ∃ c2, ProductionCardUseCases.startComponentProduction c cid now =
            .ok c2 ∧
          findComponent c2.components cid =
            some { comp with
                   timeTracker := some
                     { startTime := now, totalTimeMinutes := 0,
                       isPaused := false, totalPauseMinutes := 0 }
                   startedAt := some now }) := by
  refine ⟨?_, ?_, ?_, ?_⟩
  · intro o cid now comp t hc ht hp
    unfold ManufacturingOrderUseCases.startComponentProduction
    by_cases hs : o.status ≠ OrderStatus.in_progress ∧ o.status ≠ OrderStatus.paused
    · simp [hs, Except.isOk, Except.toBool]
    · by_cases hcompl : comp.isCompleted <;>
        simp [hs, hc, ht, hp, hcompl, Except.isOk, Except.toBool]
  · intro o now h
    simp [ManufacturingOrderUseCases.startProduction, h, Except.isOk, Except.toBool]
  · intro c now h
    simp [ProductionCardUseCases.startCardProduction, h, Except.isOk, Except.toBool]
  · intro c cid now comp hc hcompl
    refine ⟨{ c with
              components := updateFirstComponent c.components cid (fun x =>
                { x with
                  timeTracker := some
                    { startTime := now, totalTimeMinutes := 0,
                      isPaused := false, totalPauseMinutes := 0 }
                  startedAt := some now }) }, ?_, ?_⟩
    · unfold ProductionCardUseCases.startComponentProduction
      rw [hc]
      simp [hcompl]
    · dsimp only
      rw [findComponent_updateFirstComponent c.components cid
            (fun x =>
              { x with
                timeTracker := some
                  { startTime := now, totalTimeMinutes := 0,
                    isPaused := false, totalPauseMinutes := 0 }
                startedAt := some now })
            (fun x => rfl), hc]
      rfl

/-- Witness for C8: starting the completed-order fixture (not pending) is
rejected. -/
theorem C8_double_start_witness :
    (ManufacturingOrderUseCases.startProduction completedOrderFixture 9).isOk
      = false :=
  C8_double_start.2.1 completedOrderFixture 9 (by decide)

/-- Counterexample for C8 as stated: at the card-component level, starting a
component whose tracker is active (unpaused, with 42 accumulated pause
minutes) succeeds and resets the tracker to a fresh one. -/
theorem C8_card_component_double_start_resets :
    activeTimerComponent.timeTracker =
      some { startTime := 0, isPaused := false, totalPauseMinutes := 42 } ∧
    (ProductionCardUseCases.startComponentProduction pendingCardFixture "c1"
        100).toOption.map
      (fun c => (findComponent c.components "c1").map (fun x => x.timeTracker)) =
      some (some (some
        { startTime := 100, isPaused := false, totalPauseMinutes := 0 })) := by
  decide

theorem createMultipleProductionCards_length
    (reqs : List CreateProductionCardRequest) :
    (ProductionCardUseCases.createMultipleProductionCards reqs).length =
      reqs.length := by
  simp [ProductionCardUseCases.createMultipleProductionCards]

theorem createMultipleProductionCards_get (reqs : List CreateProductionCardRequest)
    (k : Nat)
    (hk : k < (ProductionCardUseCases.createMultipleProductionCards reqs).length) :
    (ProductionCardUseCases.createMultipleProductionCards reqs).get ⟨k, hk⟩ =
      ProductionCardUseCases.createProductionCard
        (reqs.get ⟨k, by simpa [createMultipleProductionCards_length] using hk⟩)
        (toString k) := by
  simp [ProductionCardUseCases.createMultipleProductionCards, List.get_eq_getElem,
    List.getElem_map, List.getElem_enum]

/-- C1 (amended): every successful `createManufacturingOrder` call yields
exactly one pending order with `estimatedHours = estOrOne model × quantity`
(the JS `|| 1` fallback replaces a missing OR zero
`estimatedManufacturingTime` by 1) and `quantity` production cards numbered
1..quantity, each pending, of quantity 1, with `totalCards = quantity`,
per-unit `estimatedHours = estOrOne model`, and a component list equal by
value to the order's resolved component list (each card's list is a fresh
JSON clone in the source, so no reference is shared with the order or a
sibling). -/
theorem C1_create_order_and_cards :
    ∀ (inv : List InventoryItem) (request : CreateManufacturingOrderRequest)
      (now : Int) (oid : String) (model : InventoryItem),
      findItemById inv request.modelId = some model →
      model.canManufacture ≠ some false →
      model.itemType = InventoryType.model →
      1 ≤ request.quantity →
      ∃ order cards,
        ManufacturingOrderUseCases.createManufacturingOrder inv request now oid =
          .ok (order, cards) ∧
        order.status = OrderStatus.pending ∧
        order.estimatedHours = estOrOne model * request.quantity ∧
        cards.length = request.quantity.toNat ∧
        (∀ k (hk : k < cards.length),
          (cards.get ⟨k, hk⟩).cardNumber = (k : Int) + 1 ∧
          (cards.get ⟨k, hk⟩).totalCards = request.quantity ∧
          (cards.get ⟨k, hk⟩).estimatedHours = estOrOne model ∧
          (cards.get ⟨k, hk⟩).status = CardStatus.pending ∧
          (cards.get ⟨k, hk⟩).quantity = 1 ∧
          (cards.get ⟨k, hk⟩).components = order.components) := by
  intro inv request now oid model hm hcan htype hq
  unfold ManufacturingOrderUseCases.createManufacturingOrder
  simp only [hm]
  rw [if_neg hcan, if_neg (by simp [htype])]
  refine ⟨_, _, rfl, rfl, rfl, ?_, ?_⟩
  · rw [createMultipleProductionCards_length]
    simp only [List.length_map, List.length_range]
  · intro k hk
    rw [createMultipleProductionCards_get]
    simp [ProductionCardUseCases.createProductionCard, jsonCloneComponents,
      List.get_eq_getElem, List.getElem_map, List.getElem_range]

/-- Witness for C1: creating three units of the two-hour model produces a
six-hour order and three two-hour cards. -/
theorem C1_create_order_and_cards_witness :
    ∃ order cards,
      ManufacturingOrderUseCases.createManufacturingOrder [twoHourModel]
        twoHourRequest 0 "o1" = .ok (order, cards) ∧
      order.status = OrderStatus.pending ∧
      order.estimatedHours = estOrOne twoHourModel * twoHourRequest.quantity ∧
      cards.length = twoHourRequest.quantity.toNat ∧
      (∀ k (hk : k < cards.length),
        (cards.get ⟨k, hk⟩).cardNumber = (k : Int) + 1 ∧
        (cards.get ⟨k, hk⟩).totalCards = twoHourRequest.quantity ∧
        (cards.get ⟨k, hk⟩).estimatedHours = estOrOne twoHourModel ∧
        (cards.get ⟨k, hk⟩).status = CardStatus.pending ∧
        (cards.get ⟨k, hk⟩).quantity = 1 ∧
        (cards.get ⟨k, hk⟩).components = order.components) :=
  C1_create_order_and_cards [twoHourModel] twoHourRequest 0 "o1" twoHourModel
    (by decide) (by decide) (by rfl) (by decide)

/-- Counterexample for C1 as stated: a model whose
`estimatedManufacturingTime` is present but `0` yields
`order.estimatedHours = 1` (the `|| 1` fallback), not `0 × quantity = 0`. -/
theorem C1_zero_time_model_estimatedHours :
    ((ManufacturingOrderUseCases.createManufacturingOrder [zeroTimeModel]
        zeroTimeRequest 0 "o1").toOption.map (fun p => p.1.estimatedHours))
      = some 1 ∧
    zeroTimeModel.estimatedManufacturingTime = some 0 ∧
    zeroTimeRequest.quantity = 1 ∧ (1 : Int) ≠ 0 * 1 := by
  decide

/-- C6: resuming a paused order or card tracker with `pauseStartTime = pst` at
time `now` adds `round((now − pst)/60000)` to `totalPauseMinutes`, clears
`pauseStartTime` and unpauses; and over any sequence of pause/resume cycles
the rounded per-interval pause minutes accumulate additively, with no interval
counted twice and none lost. -/
theorem C6_resume_accumulates_pause :
    (∀ (o : ManufacturingOrder) (t : TimeTracker) (pst now : Int),
        o.status = OrderStatus.paused → o.timeTracker = some t →
        t.pauseStartTime = some pst →
        ManufacturingOrderUseCases.resumeProduction o now =
          .ok { o with
                status := OrderStatus.in_progress
                timeTracker := some
                  { t with
                    isPaused := false
                    totalPauseMinutes :=
                      t.totalPauseMinutes + jsRoundDiv (now - pst) 60000
                    pauseStartTime := none } }) ∧
    (∀ (c : ProductionCard) (t : TimeTracker) (pst now : Int),
        c.status = CardStatus.paused → c.timeTracker = some t →
        t.pauseStartTime = some pst →
        ProductionCardUseCases.resumeCardProduction c now =
          .ok { c with
                status := CardStatus.in_progress
                timeTracker := some
                  { t with
                    isPaused := false
                    totalPauseMinutes :=
                      t.totalPauseMinutes + jsRoundDiv (now - pst) 60000
                    pauseStartTime := none } }) ∧
    (∀ (o : ManufacturingOrder) (t : TimeTracker) (ps : List (Int × Int)),
        o.status = OrderStatus.in_progress → o.timeTracker = some t →
        t.isPaused = false → t.pauseStartTime = none →
        ∃ o2 t2, runOrderCycles o ps = .ok o2 ∧ o2.timeTracker = some t2 ∧
          t2.totalPauseMinutes = t.totalPauseMinutes +
            (ps.map (fun pr => jsRoundDiv (pr.2 - pr.1) 60000)).sum ∧
          o2.status = OrderStatus.in_progress ∧ t2.isPaused = false ∧
          t2.pauseStartTime = none) ∧
    (∀ (c : ProductionCard) (t : TimeTracker) (ps : List (Int × Int)),
        c.status = CardStatus.in_progress → c.timeTracker = some t →
        t.isPaused = false → t.pauseStartTime = none →
        ∃ c2 t2, runCardCycles c ps = .ok c2 ∧ c2.timeTracker = some t2 ∧
          t2.totalPauseMinutes = t.totalPauseMinutes +
            (ps.map (fun pr => jsRoundDiv (pr.2 - pr.1) 60000)).sum ∧
          c2.status = CardStatus.in_progress ∧ t2.isPaused = false ∧
          t2.pauseStartTime = none) := by
  have h6 : (1000 : Int) * 60 = 60000 := by norm_num
  refine ⟨?_, ?_, ?_, ?_⟩
  · intro o t pst now h ht hpst
    unfold ManufacturingOrderUseCases.resumeProduction
    simp only [h, ht, hpst, h6]
    simp
  · intro c t pst now h ht hpst
    unfold ProductionCardUseCases.resumeCardProduction
    simp only [h, ht, hpst, h6]
    simp
  · intro o t ps
    induction ps generalizing o t with
    | nil =>
      intro h ht hiso hpst
      exact ⟨o, t, rfl, ht, by simp, h, hiso, hpst⟩
    | cons pr rest ih =>
      intro h ht hiso hpst
      obtain ⟨p, r⟩ := pr
      have hpause : ManufacturingOrderUseCases.pauseProduction o p =
          .ok { o with
                status := OrderStatus.paused
                timeTracker := some
                  { t with isPaused := true, pauseStartTime := some p } } := by
        unfold ManufacturingOrderUseCases.pauseProduction
        simp [h, ht]
      have hresume : ManufacturingOrderUseCases.resumeProduction
          { o with
            status := OrderStatus.paused
            timeTracker := some
              { t with isPaused := true, pauseStartTime := some p } } r =
          .ok { o with
                status := OrderStatus.in_progress
                timeTracker := some
                  { t with
                    isPaused := false
                    totalPauseMinutes :=
                      t.totalPauseMinutes + jsRoundDiv (r - p) (1000 * 60)
                    pauseStartTime := none } } := by
        unfold ManufacturingOrderUseCases.resumeProduction
        simp
      obtain ⟨o2, t2, hrun, htr2, htot, hst, hip, hpst2⟩ :=
        ih { o with
             status := OrderStatus.in_progress
             timeTracker := some
               { t with
                 isPaused := false
                 totalPauseMinutes :=
                   t.totalPauseMinutes + jsRoundDiv (r - p) (1000 * 60)
                 pauseStartTime := none } }
          { t with
            isPaused := false
            totalPauseMinutes :=
              t.totalPauseMinutes + jsRoundDiv (r - p) (1000 * 60)
            pauseStartTime := none }
          rfl rfl rfl rfl
    -- fold the one-cycle run into the tail run and re-associate the sum
      refine ⟨o2, t2, ?_, htr2, ?_, hst, hip, hpst2⟩
      · unfold runOrderCycles
        rw [hpause]
        dsimp only
        rw [hresume]
        dsimp only
        exact hrun
      · rw [htot]
        simp only [List.map_cons, List.sum_cons, h6]
        ring
  · intro c t ps
    induction ps generalizing c t with
    | nil =>
      intro h ht hiso hpst
      exact ⟨c, t, rfl, ht, by simp, h, hiso, hpst⟩
    | cons pr rest ih =>
      intro h ht hiso hpst
      obtain ⟨p, r⟩ := pr
      have hpause : ProductionCardUseCases.pauseCardProduction c p =
          .ok { c with
                status := CardStatus.paused
                timeTracker := some
                  { t with isPaused := true, pauseStartTime := some p } } := by
        unfold ProductionCardUseCases.pauseCardProduction
        simp [h, ht]
      have hresume : ProductionCardUseCases.resumeCardProduction
          { c with
            status := CardStatus.paused
            timeTracker := some
              { t with isPaused := true, pauseStartTime := some p } } r =
          .ok { c with
                status := CardStatus.in_progress
                timeTracker := some
                  { t with
                    isPaused := false
                    totalPauseMinutes :=
                      t.totalPauseMinutes + jsRoundDiv (r - p) (1000 * 60)
                    pauseStartTime := none } } := by
        unfold ProductionCardUseCases.resumeCardProduction
        simp
      obtain ⟨c2, t2, hrun, htr2, htot, hst, hip, hpst2⟩ :=
        ih { c with
             status := CardStatus.in_progress
             timeTracker := some
               { t with
                 isPaused := false
                 totalPauseMinutes :=
                   t.totalPauseMinutes + jsRoundDiv (r - p) (1000 * 60)
                 pauseStartTime := none } }
          { t with
            isPaused := false
            totalPauseMinutes :=
              t.totalPauseMinutes + jsRoundDiv (r - p) (1000 * 60)
            pauseStartTime := none }
          rfl rfl rfl rfl
      refine ⟨c2, t2, ?_, htr2, ?_, hst, hip, hpst2⟩
      · unfold runCardCycles
        rw [hpause]
        dsimp only
        rw [hresume]
        dsimp only
        exact hrun
      · rw [htot]
        simp only [List.map_cons, List.sum_cons, h6]
        ring

/-- Witness for C6: resuming the paused fixture (paused at 60000 ms) at
180000 ms folds 2 rounded minutes into `totalPauseMinutes`. -/
theorem C6_resume_accumulates_pause_witness :
    ManufacturingOrderUseCases.resumeProduction pausedOrderFixture 180000 =
      .ok { pausedOrderFixture with
            status := OrderStatus.in_progress
            timeTracker := some
              { pausedTrackerFixture with
                isPaused := false
                totalPauseMinutes :=
                  pausedTrackerFixture.totalPauseMinutes +
                    jsRoundDiv (180000 - 60000) 60000
                pauseStartTime := none } } :=
  C6_resume_accumulates_pause.1 pausedOrderFixture pausedTrackerFixture
    60000 180000 (by rfl) (by rfl) (by rfl)

end BySimmed
